import Mathlib

/-!
# DataImpact user service: account handlers and token issuer

A shallow embedding of `handlers/user_handler.go`, `models/user.go` and
`utils/utils.go`.  The record store (MongoDB collection `users`), the artifact
store (directory `users/`), the credential hasher (bcrypt) and the random
source (`crypto/rand`) are external collaborators; they are modelled here by
their documented contracts, with explicit fault inputs for every error the
handlers branch on.  The handler `ListUsers`, which no property below concerns,
is left out.
-/

namespace DataImpact

/-! ## Bytes, hexadecimal text and object ids -/

/-- A Go `byte`. -/
abbrev Byte := Fin 256

/-- The table `"0123456789abcdef"` used by `encoding/hex` when encoding. -/
def hextable : List Char := "0123456789abcdef".toList

/-- One hexadecimal digit of the encoder (`hextable[n]`, `n < 16`). -/
def hexDigit (n : Nat) : Char := hextable.getD n '0'

/-- The function `fromHexChar` of `encoding/hex`: both cases of the letters are accepted. -/
def fromHexChar (c : Char) : Option Nat :=
  if '0'.toNat ≤ c.toNat ∧ c.toNat ≤ '9'.toNat then some (c.toNat - '0'.toNat)
  else if 'a'.toNat ≤ c.toNat ∧ c.toNat ≤ 'f'.toNat then some (c.toNat - 'a'.toNat + 10)
  else if 'A'.toNat ≤ c.toNat ∧ c.toNat ≤ 'F'.toNat then some (c.toNat - 'A'.toNat + 10)
  else none

/-- The function `hex.EncodeToString`: two lower-case digits per byte. -/
def hexEncode : List Byte → List Char
  | [] => []
  | b :: bs => hexDigit (b.val / 16) :: hexDigit (b.val % 16) :: hexEncode bs

/-- The function `hex.Decode`: fails on an odd length or on a character that is no hex digit. -/
def hexDecode : List Char → Option (List Byte)
  | [] => some []
  | [_] => none
  | c1 :: c2 :: cs =>
    match fromHexChar c1, fromHexChar c2 with
    | some a, some b =>
      match hexDecode cs with
      | some bs => some (Fin.ofNat (a * 16 + b) :: bs)
      | none => none
    | _, _ => none

/-- The type `primitive.ObjectID`, an array of 12 bytes. -/
structure ObjectID where
  bytes : List Byte
  size : bytes.length = 12
deriving DecidableEq

/-- The value `primitive.NilObjectID`: twelve zero bytes, the zero value of the type. -/
def NilObjectID : ObjectID := ⟨List.replicate 12 0, by simp⟩

/-- The method `ObjectID.Hex`: the 24-character lower-case hexadecimal form. -/
def ObjectID.Hex (id : ObjectID) : String := String.mk (hexEncode id.bytes)

/-- The function `primitive.ObjectIDFromHex`: the text must have length 24 and decode as
hexadecimal.  (Go compares the byte length; a text of 24 bytes that is not 24 ASCII characters
fails in the decoder, so both length tests reject the same inputs.) -/
def ObjectIDFromHex (s : String) : Option ObjectID :=
  if s.length ≠ 24 then none
  else
    match hexDecode s.toList with
    | none => none
    | some bs => if h : bs.length = 12 then some ⟨bs, h⟩ else none

/-! ## Token issuer (`utils/utils.go`) -/

/-- The constant `charset` of `utils.go`. -/
def charset : String := "abcdefghijklmnopqrstuvwxyzABCDEFGHIJKLMNOPQRSTUVWXYZ0123456789"

/-- The random source `crypto/rand`, as the bytes it still has to deliver. -/
abbrev RandSource := List Byte

/-- The call `rand.Read(buf)` with `len(buf) = n`: fills the whole buffer with fresh bytes, or
returns an error when the source cannot deliver them. -/
def randRead (src : RandSource) (n : Nat) : Option (List Byte × RandSource) :=
  if n ≤ src.length then some (src.take n, src.drop n) else none

/-- The loop of `GenerateToken`: `todo` iterations remain, `i` is the loop counter.  Each
iteration refills the whole buffer `randomBytes` and uses its byte `i`.  The result `none` is
a panic (the read failed, or an index was out of range). -/
def GenerateToken.loop (length : Nat) :
    Nat → Nat → List Char → RandSource → Option (List Char × RandSource)
  | 0, _, token, src => some (token, src)
  | todo + 1, i, token, src =>
    match randRead src length with
    | none => none
    | some (randomBytes, src1) =>
      match randomBytes[i]? with
      | none => none
      | some b =>
        match charset.toList[b.val % charset.length]? with
        | none => none
        | some c => GenerateToken.loop length todo (i + 1) (token.set i c) src1

/-- The function `GenerateToken(length)`: the token and the rest of the random source, or
`none` when the function panics. -/
def GenerateToken (length : Nat) (src : RandSource) : Option (String × RandSource) :=
  match GenerateToken.loop length length 0 (List.replicate length (Char.ofNat 0)) src with
  | none => none
  | some (token, src1) => some (String.mk token, src1)

/-- The function `GenerateTokenWithDefaultLength`. -/
def GenerateTokenWithDefaultLength (src : RandSource) : Option (String × RandSource) :=
  GenerateToken 32 src

/-- The number of byte values `b` in `0..255` for which `GenerateToken` selects the symbol `s`,
that is, with `charset[b % len(charset)] = s`. -/
def selectCount (s : Char) : Nat :=
  ((List.range 256).filter
    (fun b => decide (charset.toList[b % charset.length]? = some s))).length

/-! ## Data model (`models/user.go`) -/

/-- The struct `Friend`. -/
structure Friend where
  ID : Int
  Name : String
deriving DecidableEq

/-- A Go `float64`, carried as its IEEE-754 bit pattern: the handlers only store and return
these values, they never compute with them. -/
structure Float64 where
  bits : Nat
deriving DecidableEq

/-- The struct `User`. -/
structure User where
  ID : ObjectID
  Password : String
  IsActive : Bool
  Balance : String
  Age : String
  Name : String
  Gender : String
  Company : String
  Email : String
  Phone : String
  Address : String
  About : String
  Registered : String
  Latitude : Float64
  Longitude : Float64
  Tags : List String
  Friends : List Friend
  Data : String
deriving DecidableEq

/-! ## External collaborators -/

/-- The credential hasher `golang.org/x/crypto/bcrypt`, taken as a parameter. -/
structure Hasher where
  /-- The function `bcrypt.GenerateFromPassword(password, cost)`, with the salt it draws;
  `none` is an error. -/
  GenerateFromPassword : String → Nat → List Byte → Option String
  /-- The function `bcrypt.CompareHashAndPassword(hash, password)`; `true` is a `nil` error. -/
  CompareHashAndPassword : String → String → Bool

/-- The constant `bcrypt.DefaultCost`. -/
def bcryptDefaultCost : Nat := 10

/-- The contract of the hasher: a digest it produced verifies against its password. -/
def Hasher.Sound (h : Hasher) : Prop :=
  ∀ pw cost salt digest,
    h.GenerateFromPassword pw cost salt = some digest → h.CompareHashAndPassword digest pw = true

/-- A stand-in hasher for evaluating the handlers on concrete inputs: the digest is a version
tag followed by the reversed password; a text without the tag verifies against nothing. -/
def stubHasher : Hasher where
  GenerateFromPassword pw _ _ := some ("$2a$" ++ String.mk pw.toList.reverse)
  CompareHashAndPassword digest pw := decide (digest = "$2a$" ++ String.mk pw.toList.reverse)

/-- What the environment does during one request: which collaborator calls fail, and the
values the collaborators draw. -/
structure Env where
  /-- The call `FindOne(...).Decode` fails with an error other than `mongo.ErrNoDocuments`. -/
  findFault : Bool
  /-- The call `InsertOne` fails. -/
  insertFault : Bool
  /-- The call `DeleteOne` fails. -/
  deleteFault : Bool
  /-- The call `ReplaceOne` fails. -/
  replaceFault : Bool
  /-- The call `ioutil.WriteFile` fails. -/
  writeFault : Bool
  /-- The call `os.Remove` fails with an error other than "does not exist". -/
  removeFault : Bool
  /-- The call `os.Stat` fails although the file exists (any error but "does not exist"). -/
  statFault : Bool
  /-- The id the driver generates (`primitive.NewObjectID()`) for a document without `_id`. -/
  newObjectID : ObjectID
  /-- The salt bcrypt draws. -/
  salt : List Byte

/-- The collection `users`: at most one document per `_id`. -/
abbrev Collection := ObjectID → Option User

/-- The directory of artifacts: file path to contents. -/
abbrev Files := String → Option String

/-- The persisted state: record store and artifact store. -/
structure State where
  users : Collection
  files : Files

/-- The errors of the record store the handlers tell apart. -/
inductive MongoErr
  | ErrNoDocuments
  | other
deriving DecidableEq

/-- The call `Collection.FindOne(ctx, bson.M{"_id": k}).Decode(&user)`. -/
def FindOne (env : Env) (coll : Collection) (k : ObjectID) : Except MongoErr User :=
  if env.findFault then .error .other
  else
    match coll k with
    | none => .error .ErrNoDocuments
    | some u => .ok u

/-- The call `Collection.InsertOne(ctx, doc)`.  The field `ID` is tagged `bson:"_id,omitempty"`:
a zero id is left out of the document and the driver generates one.  A document whose `_id` is
taken is refused (duplicate key).  Returns the new collection and `InsertedID`. -/
def InsertOne (env : Env) (coll : Collection) (doc : User) :
    Except MongoErr (Collection × ObjectID) :=
  let id := if doc.ID = NilObjectID then env.newObjectID else doc.ID
  if env.insertFault then .error .other
  else if (coll id).isSome then .error .other
  else .ok (Function.update coll id (some { doc with ID := id }), id)

/-- The id under which `InsertOne` stores a document. -/
def assignedID (env : Env) (u : User) : ObjectID :=
  if u.ID = NilObjectID then env.newObjectID else u.ID

/-- The call `Collection.DeleteOne(ctx, bson.M{"_id": k})`. -/
def DeleteOne (env : Env) (coll : Collection) (k : ObjectID) : Except MongoErr Collection :=
  if env.deleteFault then .error .other
  else .ok (Function.update coll k none)

/-- The call `Collection.ReplaceOne(ctx, bson.M{"_id": k}, doc)`: the matched document keeps its
`_id`; a replacement that names another `_id` is refused; no match is not an error. -/
def ReplaceOne (env : Env) (coll : Collection) (k : ObjectID) (doc : User) :
    Except MongoErr Collection :=
  if env.replaceFault then .error .other
  else
    match coll k with
    | none => .ok coll
    | some _ =>
      if doc.ID = NilObjectID ∨ doc.ID = k then
        .ok (Function.update coll k (some { doc with ID := k }))
      else .error .other

/-- The call `filepath.Join(dir, name)` for a one-component file name. -/
def filepathJoin (dir name : String) : String := dir ++ "/" ++ name

/-- The call `ioutil.WriteFile(path, data, 0644)`: creates or overwrites; `none` is an error. -/
def WriteFile (env : Env) (files : Files) (path data : String) : Option Files :=
  if env.writeFault then none else some (Function.update files path (some data))

/-- The errors of `os.Remove` the handler tells apart. -/
inductive RemoveErr
  | notExist
  | other
deriving DecidableEq

/-- The call `os.Remove(path)`. -/
def osRemove (env : Env) (files : Files) (path : String) : Except RemoveErr Files :=
  if env.removeFault then .error .other
  else
    match files path with
    | none => .error .notExist
    | some _ => .ok (Function.update files path none)

/-- The test `_, err := os.Stat(path); err == nil`: the call is answered and the file exists.
Every error of `os.Stat`, not only "does not exist", makes the test false. -/
def osStat (env : Env) (files : Files) (path : String) : Bool :=
  if env.statFault then false else (files path).isSome

/-! ## Requests and responses (`handlers/user_handler.go`) -/

/-- The body written by `c.JSON`. -/
inductive Body
  | error (msg : String)
  | userId (id : String)
  | token (t : String)
  | message (m : String)
  | user (u : User)
deriving DecidableEq

/-- The HTTP response: status code and body. -/
structure Response where
  status : Nat
  body : Body
deriving DecidableEq

/-- The struct `CreateUserRequest`; `File` holds what `json.Unmarshal([]byte(req.File), &user)`
yields, the decoded user or the error text. -/
structure CreateUserRequest where
  File : Except String User

/-- The struct `UpdateUserRequest`, as `CreateUserRequest`. -/
structure UpdateUserRequest where
  File : Except String User

/-- The struct `LoginRequest`. -/
structure LoginRequest where
  ID : String
  Password : String

/-- The handler `UserHandler.CreateUser`.  The argument `req` is the outcome of
`c.ShouldBindJSON(&req)`. -/
def CreateUser (h : Hasher) (env : Env) (st : State) (req : Except String CreateUserRequest) :
    Response × State :=
  match req with
  | .error e => (⟨400, .error e⟩, st)
  | .ok r =>
    match r.File with
    | .error e => (⟨400, .error e⟩, st)
    | .ok user =>
      match FindOne env st.users user.ID with
      | .ok _ => (⟨409, .error "User already exists"⟩, st)
      | .error .other => (⟨500, .error "Failed to create user"⟩, st)
      | .error .ErrNoDocuments =>
        match h.GenerateFromPassword user.Password bcryptDefaultCost env.salt with
        | none => (⟨500, .error "Failed to encrypt password"⟩, st)
        | some hashedPassword =>
          let user := { user with Password := hashedPassword }
          match InsertOne env st.users user with
          | .error _ => (⟨500, .error "Failed to create user"⟩, st)
          | .ok (users1, insertedID) =>
            let fileName := user.ID.Hex ++ ".txt"
            let filePath := filepathJoin "users" fileName
            match WriteFile env st.files filePath user.Data with
            | none => (⟨500, .error "Failed to create user file"⟩, { st with users := users1 })
            | some files1 => (⟨200, .userId insertedID.Hex⟩, ⟨users1, files1⟩)

/-- The handler `UserHandler.Login`.  The result `none` is a panic of the token issuer. -/
def Login (h : Hasher) (env : Env) (st : State) (src : RandSource)
    (req : Except String LoginRequest) : Option Response :=
  match req with
  | .error e => some ⟨400, .error e⟩
  | .ok r =>
    match ObjectIDFromHex r.ID with
    | none => some ⟨401, .error "Error parsing the ID"⟩
    | some primitiveObjectID =>
      match FindOne env st.users primitiveObjectID with
      | .error .ErrNoDocuments =>
        some ⟨401, .error ("No user with id '" ++ r.ID ++ "' found")⟩
      | .error .other => some ⟨401, .error "Wrong password"⟩
      | .ok user =>
        if h.CompareHashAndPassword user.Password r.Password = false then
          some ⟨401, .error "Invalid credentials"⟩
        else
          match GenerateTokenWithDefaultLength src with
          | none => none
          | some (token, _) => some ⟨200, .token token⟩

/-- The handler `UserHandler.DeleteUser`; `userID` is `c.Param("id")`. -/
def DeleteUser (env : Env) (st : State) (userID : String) : Response × State :=
  match ObjectIDFromHex userID with
  | none => (⟨401, .error "Error parsing the ID"⟩, st)
  | some primitiveObjectID =>
    match FindOne env st.users primitiveObjectID with
    | .error .ErrNoDocuments => (⟨404, .error "User not found"⟩, st)
    | .error .other => (⟨500, .error "Failed to delete user"⟩, st)
    | .ok _ =>
      match DeleteOne env st.users primitiveObjectID with
      | .error _ => (⟨500, .error "Failed to delete user"⟩, st)
      | .ok users1 =>
        let filePath := filepathJoin "users" (userID ++ ".txt")
        match osRemove env st.files filePath with
        | .error .other =>
          (⟨500, .error "Failed to delete user file"⟩, { st with users := users1 })
        | .error .notExist =>
          (⟨200, .message "User deleted successfully"⟩, { st with users := users1 })
        | .ok files1 => (⟨200, .message "User deleted successfully"⟩, ⟨users1, files1⟩)

/-- The handler `UserHandler.GetUserByID`; `userID` is `c.Param("id")`. -/
def GetUserByID (env : Env) (st : State) (userID : String) : Response :=
  match ObjectIDFromHex userID with
  | none => ⟨401, .error "Error parsing the ID"⟩
  | some primitiveObjectID =>
    match FindOne env st.users primitiveObjectID with
    | .error .ErrNoDocuments => ⟨404, .error "User not found"⟩
    | .error .other => ⟨500, .error "Failed to get user"⟩
    | .ok user => ⟨200, .user user⟩

/-- The handler `UserHandler.UpdateUser`; `userID` is `c.Param("id")`, `req` the outcome of
`c.ShouldBindJSON(&req)`. -/
def UpdateUser (env : Env) (st : State) (userID : String)
    (req : Except String UpdateUserRequest) : Response × State :=
  match ObjectIDFromHex userID with
  | none => (⟨401, .error "Error parsing the ID"⟩, st)
  | some primitiveObjectID =>
    match req with
    | .error e => (⟨400, .error e⟩, st)
    | .ok r =>
      match r.File with
      | .error e => (⟨400, .error e⟩, st)
      | .ok updatedUser =>
        if updatedUser.ID ≠ NilObjectID then
          (⟨400, .error "User Id can't be updated"⟩, st)
        else
          match FindOne env st.users primitiveObjectID with
          | .error .ErrNoDocuments => (⟨404, .error "User not found"⟩, st)
          | .error .other => (⟨500, .error "Failed to update user"⟩, st)
          | .ok _ =>
            match ReplaceOne env st.users primitiveObjectID updatedUser with
            | .error _ => (⟨500, .error "Failed to update user"⟩, st)
            | .ok users1 =>
              let filePath := filepathJoin "users" (userID ++ ".txt")
              if osStat env st.files filePath then
                match WriteFile env st.files filePath updatedUser.Data with
                | none =>
                  (⟨500, .error "Failed to update user file"⟩, { st with users := users1 })
                | some files1 => (⟨200, .message "User updated successfully"⟩, ⟨users1, files1⟩)
              else (⟨200, .message "User updated successfully"⟩, { st with users := users1 })

/-! ## Concrete inputs used to evaluate the handlers -/

/-- An environment in which no collaborator call fails. -/
def quietEnv (newID : ObjectID) : Env :=
  { findFault := false, insertFault := false, deleteFault := false, replaceFault := false,
    writeFault := false, removeFault := false, statFault := false, newObjectID := newID, salt := [] }

/-- The empty state: no record, no artifact. -/
def emptyState : State := ⟨fun _ => none, fun _ => none⟩

/-- The zero value of `User` with the given name, password and data: what `json.Unmarshal`
yields for a payload that sets only these three fields. -/
def userOf (id : ObjectID) (name password data : String) : User :=
  { ID := id, Password := password, IsActive := false, Balance := "", Age := "", Name := name,
    Gender := "", Company := "", Email := "", Phone := "", Address := "", About := "",
    Registered := "", Latitude := ⟨0⟩, Longitude := ⟨0⟩, Tags := [], Friends := [],
    Data := data }

/-- A sample object id, `654a00000000000000000001` in hexadecimal. -/
def sampleID : ObjectID := ⟨[101, 74, 0, 0, 0, 0, 0, 0, 0, 0, 0, 1], by decide⟩

/-- The payload `{name:"Ann", password:"pw", data:"note"}`, decoded: no id is set. -/
def annPayload : User := userOf NilObjectID "Ann" "pw" "note"

/-- The state after `CreateUser` with `annPayload` on the empty state, the driver generating
`sampleID`. -/
def annState : State :=
  (CreateUser stubHasher (quietEnv sampleID) emptyState (.ok ⟨.ok annPayload⟩)).2

/-- The payload of an update that sets a new password and new data, and no id. -/
def annUpdate : User := userOf NilObjectID "Ann" "new-pw" "note2"

/-- A second sample object id, `654a00000000000000000002` in hexadecimal. -/
def otherID : ObjectID := ⟨[101, 74, 0, 0, 0, 0, 0, 0, 0, 0, 0, 2], by decide⟩

/-- A payload that carries an explicit id. -/
def bobPayload : User := userOf otherID "Bob" "secret" "memo"

/-- The id of Bob as `CreateUser` returned it, and as it names his artifact. -/
def bobIDText : String := "654a00000000000000000002"

/-- The same id written with an upper-case letter: `ObjectIDFromHex` accepts both. -/
def bobIDUpper : String := "654A00000000000000000002"

/-- The state after `CreateUser` with `bobPayload` on the empty state. -/
def bobState : State :=
  (CreateUser stubHasher (quietEnv sampleID) emptyState (.ok ⟨.ok bobPayload⟩)).2

/-! ## Hexadecimal round trip -/

theorem fromHexChar_hexDigit (n : Nat) (h : n < 16) : fromHexChar (hexDigit n) = some n := by
  interval_cases n <;> decide

theorem hexDecode_hexEncode (bs : List Byte) : hexDecode (hexEncode bs) = some bs := by
  induction bs with
  | nil => rfl
  | cons b bs ih =>
    have h1 : b.val / 16 < 16 := by omega
    have h2 : b.val % 16 < 16 := by omega
    have h3 : (Fin.ofNat (b.val / 16 * 16 + b.val % 16) : Byte) = b := by
      apply Fin.ext
      show (b.val / 16 * 16 + b.val % 16) % 256 = b.val
      omega
    simp [hexEncode, hexDecode, fromHexChar_hexDigit _ h1, fromHexChar_hexDigit _ h2, ih, h3]

theorem length_hexEncode (bs : List Byte) : (hexEncode bs).length = 2 * bs.length := by
  induction bs with
  | nil => rfl
  | cons b bs ih => simp [hexEncode, ih]; omega

/-- Parsing the hexadecimal form of an object id gives the id back. -/
theorem ObjectIDFromHex_Hex (id : ObjectID) : ObjectIDFromHex id.Hex = some id := by
  have hlen : (hexEncode id.bytes).length = 24 := by rw [length_hexEncode, id.size]
  simp [ObjectIDFromHex, ObjectID.Hex, String.length, hlen, hexDecode_hexEncode, id.size]

/-! ## The token issuer -/

theorem charset_length : charset.length = 62 := by decide

theorem charset_toList_length : charset.toList.length = 62 := by decide

/-- The loop of `GenerateToken` runs to its end when the source delivers `length` bytes for
each remaining iteration; the positions it has passed hold symbols of the alphabet. -/
theorem GenerateToken.loop_spec (length : Nat) :
    ∀ (todo i : Nat) (token : List Char) (src : RandSource),
      i + todo = length → token.length = length → todo * length ≤ src.length →
      (∀ j, j < i → ∃ c, token[j]? = some c ∧ c ∈ charset.toList) →
      ∃ tok, GenerateToken.loop length todo i token src = some (tok, src.drop (todo * length)) ∧
        tok.length = length ∧ ∀ j, j < length → ∃ c, tok[j]? = some c ∧ c ∈ charset.toList := by
  intro todo
  induction todo with
  | zero =>
    intro i token src hi hlen _ hinv
    refine ⟨token, by simp [GenerateToken.loop], hlen, ?_⟩
    intro j hj
    exact hinv j (by omega)
  | succ todo ih =>
    intro i token src hi hlen hsrc hinv
    have hle : length ≤ src.length := by
      have : length ≤ (todo + 1) * length := Nat.le_mul_of_pos_left _ (by omega)
      omega
    have hi2 : i < (List.take length src).length := by
      rw [List.length_take]; omega
    have hb : (List.take length src)[i]? = some ((List.take length src)[i]) :=
      List.getElem?_eq_getElem hi2
    have hk : ((List.take length src)[i]).val % charset.length < charset.toList.length := by
      rw [charset_length, charset_toList_length]; exact Nat.mod_lt _ (by decide)
    have hc := List.getElem?_eq_getElem hk
    have hmem : charset.toList[((List.take length src)[i]).val % charset.length]
        ∈ charset.toList := List.getElem_mem _
    obtain ⟨tok, htok, hl, hall⟩ := ih (i + 1)
      (token.set i (charset.toList[((List.take length src)[i]).val % charset.length]))
      (src.drop length) (by omega) (by simpa using hlen)
      (by rw [List.length_drop]; rw [Nat.succ_mul] at hsrc; omega)
      (by
        intro j hj
        by_cases hji : j = i
        · subst hji
          exact ⟨_, by simp [List.getElem?_set]; omega, hmem⟩
        · obtain ⟨c, hc1, hc2⟩ := hinv j (by omega)
          refine ⟨c, ?_, hc2⟩
          rw [List.getElem?_set_ne (fun h => hji h.symm)]
          exact hc1)
    refine ⟨tok, ?_, hl, hall⟩
    simp only [GenerateToken.loop, randRead, hle, if_true, hb, hc, htok]
    congr 2
    rw [List.drop_drop]
    congr 1
    rw [Nat.succ_mul]; omega

/-- The function `GenerateToken` returns when the source delivers `length` reads of `length` bytes,
and its token has `length` characters of the alphabet. -/
theorem GenerateToken_ok (length : Nat) (src : RandSource) (h : length * length ≤ src.length) :
    ∃ tok, GenerateToken length src = some (tok, src.drop (length * length)) ∧
      tok.length = length ∧ ∀ c, c ∈ tok.toList → c ∈ charset.toList := by
  obtain ⟨t, ht, hl, hall⟩ := GenerateToken.loop_spec length length 0
    (List.replicate length (Char.ofNat 0)) src (by omega) (by simp) h (by intro j hj; omega)
  refine ⟨String.mk t, by simp [GenerateToken, ht], by simpa [String.length] using hl, ?_⟩
  intro c hc
  have hc2 : c ∈ t := by simpa using hc
  obtain ⟨j, hj, rfl⟩ := List.getElem_of_mem hc2
  obtain ⟨c2, h1, h2⟩ := hall j (by omega)
  rw [List.getElem?_eq_getElem hj] at h1
  cases h1
  exact h2

/-! ## What a successful handler call did -/

theorem InsertOne_ok_inv (env : Env) (coll coll1 : Collection) (doc : User) (id : ObjectID)
    (hi : InsertOne env coll doc = .ok (coll1, id)) :
    id = assignedID env doc ∧ coll id = none ∧
      coll1 = Function.update coll id (some { doc with ID := id }) := by
  unfold InsertOne at hi
  simp only [] at hi
  by_cases hf : env.insertFault = true
  · rw [if_pos hf] at hi; cases hi
  · rw [if_neg hf] at hi
    by_cases hs : (coll (if doc.ID = NilObjectID then env.newObjectID else doc.ID)).isSome = true
    · rw [if_pos hs] at hi; cases hi
    · rw [if_neg hs] at hi
      injection hi with hi
      injection hi with h1 h2
      subst h2
      refine ⟨rfl, by simpa using hs, h1.symm⟩

/-- A successful `CreateUser`: the hasher produced a digest, no record was at the assigned id,
the record is stored there with the digest as its password, the response names the assigned
id, and the file written is the one named by the id of the payload. -/
theorem CreateUser_ok_inv (h : Hasher) (env : Env) (st st1 : State) (u : User) (b : Body)
    (hc : CreateUser h env st (.ok ⟨.ok u⟩) = (⟨200, b⟩, st1)) :
    ∃ digest, h.GenerateFromPassword u.Password bcryptDefaultCost env.salt = some digest ∧
      st.users (assignedID env u) = none ∧
      b = .userId (assignedID env u).Hex ∧
      st1.users = Function.update st.users (assignedID env u)
        (some { u with Password := digest, ID := assignedID env u }) ∧
      st1.files = Function.update st.files (filepathJoin "users" (u.ID.Hex ++ ".txt"))
        (some u.Data) := by
  simp only [CreateUser] at hc
  cases hf : FindOne env st.users u.ID with
  | ok a => simp [hf] at hc
  | error e =>
    cases e with
    | other => simp [hf] at hc
    | ErrNoDocuments =>
      cases hg : h.GenerateFromPassword u.Password bcryptDefaultCost env.salt with
      | none => simp [hf, hg] at hc
      | some digest =>
        cases hi : InsertOne env st.users { u with Password := digest } with
        | error e => simp [hf, hg, hi] at hc
        | ok p =>
          obtain ⟨users1, insertedID⟩ := p
          obtain ⟨h1, h2, h3⟩ := InsertOne_ok_inv _ _ _ _ _ hi
          have h1b : insertedID = assignedID env u := h1
          subst h1b
          by_cases hw : env.writeFault = true
          · simp [hf, hg, hi, WriteFile, hw] at hc
          · simp only [hf, hg, hi, WriteFile, hw, Bool.false_eq_true, if_false, Prod.mk.injEq,
              Response.mk.injEq, true_and] at hc
            obtain ⟨hb, hst⟩ := hc
            subst hst
            exact ⟨digest, rfl, h2, hb.symm, h3, rfl⟩

theorem FindOne_ok_inv (env : Env) (coll : Collection) (k : ObjectID) (u : User)
    (hf : FindOne env coll k = .ok u) : coll k = some u := by
  unfold FindOne at hf
  by_cases hfault : env.findFault = true
  · rw [if_pos hfault] at hf; cases hf
  · rw [if_neg hfault] at hf
    cases hk : coll k with
    | none => rw [hk] at hf; cases hf
    | some v => rw [hk] at hf; injection hf with hf; rw [hf]

theorem ReplaceOne_ok_inv (env : Env) (coll coll1 : Collection) (k : ObjectID) (doc old : User)
    (hold : coll k = some old) (hnil : doc.ID = NilObjectID)
    (hr : ReplaceOne env coll k doc = .ok coll1) :
    coll1 = Function.update coll k (some { doc with ID := k }) := by
  unfold ReplaceOne at hr
  by_cases hfault : env.replaceFault = true
  · rw [if_pos hfault] at hr; cases hr
  · rw [if_neg hfault] at hr
    simp only [hold, hnil, true_or, if_true] at hr
    injection hr with hr
    exact hr.symm

/-- A successful `UpdateUser`: the path id parsed, the payload decoded with a zero id, a record
was at the id, it is replaced by the payload as sent, and the file named by the text of the
path id is overwritten when `os.Stat` found it. -/
theorem UpdateUser_ok_inv (env : Env) (st st1 : State) (userID : String)
    (req : Except String UpdateUserRequest) (b : Body)
    (hu : UpdateUser env st userID req = (⟨200, b⟩, st1)) :
    ∃ k u old, ObjectIDFromHex userID = some k ∧ req = .ok ⟨.ok u⟩ ∧ u.ID = NilObjectID ∧
      st.users k = some old ∧
      st1.users = Function.update st.users k (some { u with ID := k }) ∧
      st1.files =
        if osStat env st.files (filepathJoin "users" (userID ++ ".txt")) = true then
          Function.update st.files (filepathJoin "users" (userID ++ ".txt")) (some u.Data)
        else st.files := by
  simp only [UpdateUser] at hu
  cases hp : ObjectIDFromHex userID with
  | none => simp [hp] at hu
  | some k =>
    cases req with
    | error e => simp [hp] at hu
    | ok r =>
      obtain ⟨file⟩ := r
      cases file with
      | error e => simp [hp] at hu
      | ok u =>
        by_cases hid : u.ID = NilObjectID
        · cases hf : FindOne env st.users k with
          | error e => cases e <;> simp [hp, hid, hf] at hu
          | ok old =>
            have hold := FindOne_ok_inv _ _ _ _ hf
            cases hr : ReplaceOne env st.users k u with
            | error e => simp [hp, hid, hf, hr] at hu
            | ok users1 =>
              have h1 := ReplaceOne_ok_inv _ _ _ _ _ _ hold hid hr
              refine ⟨k, u, old, rfl, rfl, hid, hold, ?_⟩
              by_cases hs : osStat env st.files (filepathJoin "users" (userID ++ ".txt")) = true
              · by_cases hw : env.writeFault = true
                · simp [hp, hid, hf, hr, hs, WriteFile, hw] at hu
                · simp only [hp, hid, hf, hr, hs, WriteFile, hw, Bool.false_eq_true,
                    if_false, if_true, Prod.mk.injEq, not_true_eq_false, ne_eq] at hu
                  obtain ⟨-, hst⟩ := hu
                  subst hst
                  exact ⟨h1, by rw [if_pos hs]⟩
              · simp only [hp, hid, hf, hr, hs, Bool.false_eq_true, if_false,
                  Prod.mk.injEq, not_true_eq_false, ne_eq] at hu
                obtain ⟨-, hst⟩ := hu
                subst hst
                exact ⟨h1, by rw [if_neg hs]⟩
        · simp [hp, hid] at hu

/-- A successful `DeleteUser`: the path id parsed, the record at the id is gone, the file named
by the path id is gone, and no other file changed. -/
theorem DeleteUser_ok_inv (env : Env) (st st1 : State) (userID : String) (b : Body)
    (hd : DeleteUser env st userID = (⟨200, b⟩, st1)) :
    ∃ k, ObjectIDFromHex userID = some k ∧
      st1.users = Function.update st.users k none ∧
      st1.files (filepathJoin "users" (userID ++ ".txt")) = none ∧
      ∀ q, q ≠ filepathJoin "users" (userID ++ ".txt") → st1.files q = st.files q := by
  simp only [DeleteUser] at hd
  cases hp : ObjectIDFromHex userID with
  | none => simp [hp] at hd
  | some k =>
    cases hf : FindOne env st.users k with
    | error e => cases e <;> simp [hp, hf] at hd
    | ok old =>
      by_cases hdf : env.deleteFault = true
      · simp [hp, hf, DeleteOne, hdf] at hd
      · by_cases hrf : env.removeFault = true
        · simp [hp, hf, DeleteOne, hdf, osRemove, hrf] at hd
        · cases hfile : st.files (filepathJoin "users" (userID ++ ".txt")) with
          | none =>
            simp only [hp, hf, DeleteOne, hdf, osRemove, hrf, hfile, Bool.false_eq_true,
              if_false, Prod.mk.injEq] at hd
            obtain ⟨-, hst⟩ := hd
            subst hst
            exact ⟨k, rfl, rfl, hfile, fun _ _ => rfl⟩
          | some data =>
            simp only [hp, hf, DeleteOne, hdf, osRemove, hrf, hfile, Bool.false_eq_true,
              if_false, Prod.mk.injEq] at hd
            obtain ⟨-, hst⟩ := hd
            subst hst
            exact ⟨k, rfl, rfl, by simp, fun q hq => by simp [Function.update, hq]⟩

/-! ## Login -/

/-- C1. When the record store answers the lookup and the random source delivers the bytes of
one default-length token, `Login(id, password)` returns status 200 with a token if and only if
`id` parses as a store key, a record is stored at that key, and `password` verifies against
the password hash of that record; in every other case it returns status 401 with an error
body, hence no token. -/
theorem Login_correct (h : Hasher) (env : Env) (st : State) (src : RandSource)
    (id password : String) (hfind : env.findFault = false) (hsrc : 32 * 32 ≤ src.length) :
    ((∃ t, Login h env st src (.ok ⟨id, password⟩) = some ⟨200, .token t⟩) ↔
      ∃ k u, ObjectIDFromHex id = some k ∧ st.users k = some u ∧
        h.CompareHashAndPassword u.Password password = true) ∧
    ((¬ ∃ k u, ObjectIDFromHex id = some k ∧ st.users k = some u ∧
        h.CompareHashAndPassword u.Password password = true) →
      ∃ msg, Login h env st src (.ok ⟨id, password⟩) = some ⟨401, .error msg⟩) := by
  obtain ⟨tok, htok, -, -⟩ := GenerateToken_ok 32 src hsrc
  cases hp : ObjectIDFromHex id with
  | none => simp [Login, hp]
  | some k =>
    cases hu : st.users k with
    | none => simp [Login, hp, FindOne, hfind, hu]
    | some u =>
      cases hc : h.CompareHashAndPassword u.Password password with
      | false => simp [Login, hp, FindOne, hfind, hu, hc]
      | true => simp [Login, hp, FindOne, hfind, hu, hc, GenerateTokenWithDefaultLength, htok]

/-- Witness of C1: the user created from `annPayload` logs in with the password `pw`. -/
theorem Login_correct_witness :
    (quietEnv sampleID).findFault = false ∧
    32 * 32 ≤ (List.replicate 1024 (0 : Byte)).length ∧
    ∃ t, Login stubHasher (quietEnv sampleID) annState (List.replicate 1024 0)
      (.ok ⟨"654a00000000000000000001", "pw"⟩) = some ⟨200, .token t⟩ :=
  ⟨rfl, Nat.le_of_eq (by rw [List.length_replicate]),
    (Login_correct stubHasher (quietEnv sampleID) annState (List.replicate 1024 0)
      "654a00000000000000000001" "pw" rfl (Nat.le_of_eq (by rw [List.length_replicate]))).1.2
      ⟨sampleID, { annPayload with ID := sampleID, Password := "$2a$wp" },
        by decide, by decide, by decide⟩⟩

/-! ## Passwords at rest -/

/-- C2, evaluated at the failing input.  The user created from `annPayload` is stored with a
digest that verifies against `pw`.  A successful `UpdateUser` on that user with the payload
`annUpdate` (password `new-pw`) stores the password exactly as sent: the stored text is the
cleartext of the request and does not verify against it. -/
theorem UpdateUser_stores_cleartext_password :
    (annState.users sampleID).map (fun r => stubHasher.CompareHashAndPassword r.Password "pw")
      = some true ∧
    (UpdateUser (quietEnv sampleID) annState "654a00000000000000000001"
      (.ok ⟨.ok annUpdate⟩)).1 = ⟨200, .message "User updated successfully"⟩ ∧
    ((UpdateUser (quietEnv sampleID) annState "654a00000000000000000001"
      (.ok ⟨.ok annUpdate⟩)).2.users sampleID).map (fun r => r.Password) = some "new-pw" ∧
    stubHasher.CompareHashAndPassword "new-pw" "new-pw" = false := by
  decide

/-! ## The artifact written by `CreateUser` -/

/-- C3, evaluated at the failing input.  `CreateUser` with `annPayload` (no id set) on the
empty state succeeds and returns the id the store assigned, `654a00000000000000000001`; no
artifact exists under that id afterwards, and the data is in the artifact named by the zero
id of the payload, `000000000000000000000000.txt`. -/
theorem CreateUser_artifact_under_zero_id :
    (CreateUser stubHasher (quietEnv sampleID) emptyState (.ok ⟨.ok annPayload⟩)).1
      = ⟨200, .userId "654a00000000000000000001"⟩ ∧
    (CreateUser stubHasher (quietEnv sampleID) emptyState (.ok ⟨.ok annPayload⟩)).2.files
      (filepathJoin "users" ("654a00000000000000000001" ++ ".txt")) = none ∧
    (CreateUser stubHasher (quietEnv sampleID) emptyState (.ok ⟨.ok annPayload⟩)).2.files
      (filepathJoin "users" ("000000000000000000000000" ++ ".txt")) = some "note" := by
  decide

/-! ## Immutability of the id under `UpdateUser` -/

/-- C4 as stated fails: with the path id `zz`, which does not parse, an update whose payload
sets an id is answered with status 401, not 400. -/
theorem UpdateUser_bad_path_id_not_400 :
    bobPayload.ID ≠ NilObjectID ∧
    UpdateUser (quietEnv sampleID) annState "zz" (.ok ⟨.ok bobPayload⟩)
      = (⟨401, .error "Error parsing the ID"⟩, annState) ∧
    (UpdateUser (quietEnv sampleID) annState "zz" (.ok ⟨.ok bobPayload⟩)).1.status ≠ 400 := by
  refine ⟨by decide, rfl, by decide⟩

/-- C4, amended.  For every `UpdateUser` call whose path id parses and whose decoded payload
sets an id other than the zero id, the call fails with status 400 and leaves record store and
artifact store unchanged; when the path id does not parse the call fails with status 401 and
leaves both unchanged; and after every successful `UpdateUser` the record is stored under the
key of the path id, carries that id, and no other key of the record store changed. -/
theorem UpdateUser_id_immutable (env : Env) (st : State) (userID : String) :
    (∀ k u, ObjectIDFromHex userID = some k → u.ID ≠ NilObjectID →
      UpdateUser env st userID (.ok ⟨.ok u⟩)
        = (⟨400, .error "User Id can't be updated"⟩, st)) ∧
    (ObjectIDFromHex userID = none →
      ∀ req, UpdateUser env st userID req = (⟨401, .error "Error parsing the ID"⟩, st)) ∧
    (∀ req b st1, UpdateUser env st userID req = (⟨200, b⟩, st1) →
      ∃ k r, ObjectIDFromHex userID = some k ∧ st1.users k = some r ∧ r.ID = k ∧
        (st.users k).isSome = true ∧ ∀ j, j ≠ k → st1.users j = st.users j) := by
  refine ⟨?_, ?_, ?_⟩
  · intro k u hp hid
    simp [UpdateUser, hp, hid]
  · intro hp req
    simp [UpdateUser, hp]
  · intro req b st1 hu
    obtain ⟨k, u, old, hp, -, -, hold, hus, -⟩ := UpdateUser_ok_inv _ _ _ _ _ _ hu
    refine ⟨k, { u with ID := k }, hp, by rw [hus]; simp, rfl, by rw [hold]; rfl, ?_⟩
    intro j hj
    rw [hus, Function.update_noteq hj]

/-- Witness of C4: on the state holding Ann, an update at her id whose payload sets an id is
refused with status 400 and the state is unchanged. -/
theorem UpdateUser_id_immutable_witness :
    UpdateUser (quietEnv sampleID) annState "654a00000000000000000001" (.ok ⟨.ok bobPayload⟩)
      = (⟨400, .error "User Id can't be updated"⟩, annState) :=
  (UpdateUser_id_immutable (quietEnv sampleID) annState "654a00000000000000000001").1
    sampleID bobPayload (by decide) (by decide)

/-! ## Duplicate create -/

/-- C5. For every payload that carries an explicit id (an id other than the zero id), if a
first `CreateUser` with it succeeds, a second `CreateUser` with the same id, when the record
store answers its lookup, fails with status 409 and returns the state unchanged; the record of
the first call is still the one stored at that id. -/
theorem CreateUser_duplicate_conflict (h : Hasher) (env1 env2 : Env) (st st1 : State)
    (u1 u2 : User) (b : Body)
    (hid : u1.ID ≠ NilObjectID) (hsame : u2.ID = u1.ID)
    (hfirst : CreateUser h env1 st (.ok ⟨.ok u1⟩) = (⟨200, b⟩, st1))
    (hfind : env2.findFault = false) :
    CreateUser h env2 st1 (.ok ⟨.ok u2⟩) = (⟨409, .error "User already exists"⟩, st1) ∧
    ∃ r, st1.users u1.ID = some r ∧ r.ID = u1.ID := by
  obtain ⟨digest, -, -, -, hus, -⟩ := CreateUser_ok_inv _ _ _ _ _ _ hfirst
  have ha : assignedID env1 u1 = u1.ID := by simp [assignedID, hid]
  rw [ha] at hus
  have hrec : st1.users u1.ID = some { u1 with Password := digest, ID := u1.ID } := by
    rw [hus]; simp
  refine ⟨?_, _, hrec, rfl⟩
  simp [CreateUser, FindOne, hfind, hsame, hrec]

/-- Witness of C5: creating Bob twice under his explicit id gives a conflict the second time. -/
theorem CreateUser_duplicate_conflict_witness :
    CreateUser stubHasher (quietEnv sampleID) bobState (.ok ⟨.ok bobPayload⟩)
      = (⟨409, .error "User already exists"⟩, bobState) :=
  (CreateUser_duplicate_conflict stubHasher (quietEnv sampleID) (quietEnv sampleID) emptyState
    bobState bobPayload bobPayload (.userId "654a00000000000000000002")
    (by decide) rfl (by
      show CreateUser stubHasher (quietEnv sampleID) emptyState (.ok ⟨.ok bobPayload⟩)
        = (⟨200, .userId "654a00000000000000000002"⟩,
          (CreateUser stubHasher (quietEnv sampleID) emptyState (.ok ⟨.ok bobPayload⟩)).2)
      exact Prod.ext (by decide) rfl) rfl).1

/-! ## Create, then get -/

/-- C6. For every decoded create payload `u` without a pre-set id and a hasher that honours
its contract: if `CreateUser` succeeds and returns the id `X`, then `GetUserByID(X)`, when the
record store answers its lookup, succeeds with a record whose id is `X`, whose password
verifies against the password of `u`, and whose every other field equals that of `u`; the id
is the one the store assigned. -/
theorem CreateUser_then_GetUserByID (h : Hasher) (hsound : h.Sound) (env1 env2 : Env)
    (st st1 : State) (u : User) (X : String)
    (hid : u.ID = NilObjectID)
    (hcreate : CreateUser h env1 st (.ok ⟨.ok u⟩) = (⟨200, .userId X⟩, st1))
    (hfind : env2.findFault = false) :
    ∃ r, GetUserByID env2 st1 X = ⟨200, .user r⟩ ∧ r.ID.Hex = X ∧
      r.ID = env1.newObjectID ∧
      h.CompareHashAndPassword r.Password u.Password = true ∧
      { r with ID := u.ID, Password := u.Password } = u := by
  obtain ⟨digest, hd, -, hb, hus, -⟩ := CreateUser_ok_inv _ _ _ _ _ _ hcreate
  have hX : X = (assignedID env1 u).Hex := by injection hb
  subst hX
  refine ⟨{ u with Password := digest, ID := assignedID env1 u }, ?_, rfl,
    by simp [assignedID, hid], hsound _ _ _ _ hd, rfl⟩
  simp [GetUserByID, ObjectIDFromHex_Hex, FindOne, hfind, hus]

/-- Witness of C6: Ann, created without an id, is read back under the returned id. -/
theorem CreateUser_then_GetUserByID_witness :
    ∃ r, GetUserByID (quietEnv sampleID) annState "654a00000000000000000001" = ⟨200, .user r⟩ ∧
      r.ID.Hex = "654a00000000000000000001" ∧
      r.ID = (quietEnv sampleID).newObjectID ∧
      stubHasher.CompareHashAndPassword r.Password annPayload.Password = true ∧
      { r with ID := annPayload.ID, Password := annPayload.Password } = annPayload :=
  CreateUser_then_GetUserByID stubHasher
    (fun pw _ _ digest hg => by
      have hd : digest = "$2a$" ++ String.mk pw.toList.reverse := by
        simpa [stubHasher] using hg.symm
      simp [stubHasher, hd])
    (quietEnv sampleID) (quietEnv sampleID) emptyState annState annPayload
    "654a00000000000000000001" rfl (Prod.ext (by decide) rfl) rfl

/-! ## Delete -/

/-- What `DeleteUser` guarantees about the artifact store: after a successful call the record
at the parsed key is gone, a following `GetUserByID` with the same text (the record store
answering its lookup) returns status 404, and the file named by the text of the path id as
it was passed is absent. -/
theorem DeleteUser_path_text (env1 env2 : Env) (st st1 : State) (userID : String) (b : Body)
    (hdel : DeleteUser env1 st userID = (⟨200, b⟩, st1))
    (hfind : env2.findFault = false) :
    (∃ k, ObjectIDFromHex userID = some k ∧ st1.users k = none) ∧
    GetUserByID env2 st1 userID = ⟨404, .error "User not found"⟩ ∧
    st1.files (filepathJoin "users" (userID ++ ".txt")) = none := by
  obtain ⟨k, hp, hus, hfile, -⟩ := DeleteUser_ok_inv _ _ _ _ _ hdel
  have hk : st1.users k = none := by rw [hus]; simp
  refine ⟨⟨k, hp, hk⟩, ?_, hfile⟩
  simp [GetUserByID, hp, FindOne, hfind, hk]

/-- C7, evaluated at the failing input.  Bob was created under the explicit id
`654a00000000000000000002` with the data `memo`, so his artifact is
`users/654a00000000000000000002.txt`.  `DeleteUser` with the same id written
`654A00000000000000000002` parses to his key, succeeds and removes his record (a following
`GetUserByID` returns 404), but it looks for the file under the text as passed, finds none,
and leaves his artifact in the artifact store. -/
theorem DeleteUser_leaves_artifact :
    (CreateUser stubHasher (quietEnv sampleID) emptyState (.ok ⟨.ok bobPayload⟩)).1
      = ⟨200, .userId bobIDText⟩ ∧
    bobState.files (filepathJoin "users" (bobIDText ++ ".txt")) = some "memo" ∧
    ObjectIDFromHex bobIDUpper = some otherID ∧ otherID.Hex = bobIDText ∧
    (DeleteUser (quietEnv sampleID) bobState bobIDUpper).1
      = ⟨200, .message "User deleted successfully"⟩ ∧
    (DeleteUser (quietEnv sampleID) bobState bobIDUpper).2.users otherID = none ∧
    GetUserByID (quietEnv sampleID) (DeleteUser (quietEnv sampleID) bobState bobIDUpper).2
      bobIDText = ⟨404, .error "User not found"⟩ ∧
    (DeleteUser (quietEnv sampleID) bobState bobIDUpper).2.files
      (filepathJoin "users" (bobIDText ++ ".txt")) = some "memo" := by
  decide

/-! ## The artifact under `UpdateUser` -/

/-- What `UpdateUser` guarantees about the artifact store: after a successful call with decoded
payload `u`, the file named by the text of the path id as it was passed holds `u.Data` if
`os.Stat` found it before the call, is absent if it was absent, and every other file is
unchanged. -/
theorem UpdateUser_path_text (env : Env) (st st1 : State) (userID : String) (u : User)
    (b : Body)
    (hupd : UpdateUser env st userID (.ok ⟨.ok u⟩) = (⟨200, b⟩, st1)) :
    (osStat env st.files (filepathJoin "users" (userID ++ ".txt")) = true →
      st1.files (filepathJoin "users" (userID ++ ".txt")) = some u.Data) ∧
    (st.files (filepathJoin "users" (userID ++ ".txt")) = none →
      st1.files (filepathJoin "users" (userID ++ ".txt")) = none) ∧
    ∀ q, q ≠ filepathJoin "users" (userID ++ ".txt") → st1.files q = st.files q := by
  obtain ⟨k, u2, old, -, hreq, -, -, -, hfs⟩ := UpdateUser_ok_inv _ _ _ _ _ _ hupd
  have hu : u = u2 := by
    injection hreq with hreq
    injection hreq with hreq
    injection hreq
  subst hu
  refine ⟨?_, ?_, ?_⟩
  · intro hs
    rw [hfs, if_pos hs]; simp
  · intro hn
    have hs : ¬ osStat env st.files (filepathJoin "users" (userID ++ ".txt")) = true := by
      simp [osStat, hn]
    rw [hfs, if_neg hs, hn]
  · intro q hq
    rw [hfs]
    split
    · rw [Function.update_noteq hq]
    · rfl

/-- C8, evaluated at the failing input.  Bob was created under the explicit id
`654a00000000000000000002` with the data `memo`, so his artifact
`users/654a00000000000000000002.txt` exists.  `UpdateUser` with the same id written
`654A00000000000000000002` and the payload `annUpdate` (data `note2`) parses to his key,
succeeds and stores `note2` in his record, but `os.Stat` is asked for the file under the text
as passed, finds none, and the artifact still holds `memo`. -/
theorem UpdateUser_leaves_artifact_stale :
    bobState.files (filepathJoin "users" (bobIDText ++ ".txt")) = some "memo" ∧
    ObjectIDFromHex bobIDUpper = some otherID ∧ otherID.Hex = bobIDText ∧
    (UpdateUser (quietEnv sampleID) bobState bobIDUpper (.ok ⟨.ok annUpdate⟩)).1
      = ⟨200, .message "User updated successfully"⟩ ∧
    ((UpdateUser (quietEnv sampleID) bobState bobIDUpper (.ok ⟨.ok annUpdate⟩)).2.users
      otherID).map (fun r => r.Data) = some "note2" ∧
    (UpdateUser (quietEnv sampleID) bobState bobIDUpper (.ok ⟨.ok annUpdate⟩)).2.files
      (filepathJoin "users" (bobIDText ++ ".txt")) = some "memo" := by
  decide

/-! ## Tokens -/

/-- C9. For every length `n` and every random source that delivers the `n` reads of `n` bytes
the loop makes, `GenerateToken(n)` returns a string of exactly `n` characters, each one of the
62 symbols of `charset`; the index `byte % 62` is within the bounds of `charset` for every
byte; and `GenerateTokenWithDefaultLength` returns such a string of exactly 32 characters
whenever the source delivers its 32 reads of 32 bytes. -/
theorem GenerateToken_alphabet (n : Nat) (src : RandSource) (hsrc : n * n ≤ src.length) :
    charset.toList.length = 62 ∧
    (∀ b : Byte, b.val % charset.length < charset.toList.length) ∧
    (∃ tok, GenerateToken n src = some (tok, src.drop (n * n)) ∧ tok.length = n ∧
      ∀ c, c ∈ tok.toList → c ∈ charset.toList) ∧
    (∀ src32 : RandSource, 32 * 32 ≤ src32.length →
      ∃ tok, GenerateTokenWithDefaultLength src32 = some (tok, src32.drop (32 * 32)) ∧
        tok.length = 32 ∧ ∀ c, c ∈ tok.toList → c ∈ charset.toList) := by
  refine ⟨charset_toList_length, ?_, GenerateToken_ok n src hsrc, ?_⟩
  · intro b
    rw [charset_length, charset_toList_length]
    exact Nat.mod_lt _ (by decide)
  · intro src32 h32
    exact GenerateToken_ok 32 src32 h32

/-- Witness of C9: a token of length 2 from the four bytes 0, 61, 62, 255. -/
theorem GenerateToken_alphabet_witness :
    2 * 2 ≤ ([0, 61, 62, 255] : RandSource).length ∧
    GenerateToken 2 [0, 61, 62, 255] = some ("ah", []) ∧
    ∃ tok, GenerateToken 2 [0, 61, 62, 255] = some (tok, []) ∧ tok.length = 2 ∧
      ∀ c, c ∈ tok.toList → c ∈ charset.toList :=
  ⟨by decide, by decide,
    (GenerateToken_alphabet 2 [0, 61, 62, 255] (by decide)).2.2.1⟩

/-- C10 as stated fails: of the 256 byte values, 5 select the symbol `a` and 4 select the
symbol `i`, so the symbols are not selected with the same probability. -/
theorem selectCount_not_uniform :
    'a' ∈ charset.toList ∧ 'i' ∈ charset.toList ∧
    selectCount 'a' = 5 ∧ selectCount 'i' = 4 ∧ selectCount 'a' ≠ selectCount 'i' := by
  decide

/-- C10, amended.  When the byte used for a position is uniform over `0..255`, each of the
first 8 symbols of `charset` (`a` to `h`) is selected by 5 byte values and each of the other
54 symbols by 4 byte values. -/
theorem selectCount_charset :
    charset.toList.map selectCount = List.replicate 8 5 ++ List.replicate 54 4 := by
  decide

end DataImpact
